import Mathlib

/-!
Verification of the lightmap-seam stitching subsystem (LightmapStitcher)
of the rbfx engine, shallowly embedded in Lean 4.

Scalar pixel/UV coordinates are embedded as rationals: every arithmetic
operation the stitcher performs on them (`1.0f - y`) is exact, so the
structural claims proved here do not depend on floating-point rounding.
Texture contents are embedded polymorphically; the per-pass seam blend
executed by the GPU is an abstract function parameter.
-/

set_option autoImplicit false

namespace LightmapStitcher

/-- Identity of the two ping-pong render-target textures owned by the
stitching context. -/
inductive TexId | ping | pong
deriving DecidableEq, Repr

/-- Primitive topology tokens used by `Geometry::SetDrawRange`. -/
inductive PrimitiveType | TRIANGLE_LIST | LINE_LIST | POINT_LIST | TRIANGLE_STRIP | LINE_STRIP
deriving DecidableEq, Repr

/-- Vertex element data types used by the seams vertex layout. -/
inductive VertexElementType | TYPE_VECTOR2 | TYPE_VECTOR3
deriving DecidableEq, Repr

/-- Vertex element semantics used by the seams vertex layout. -/
inductive VertexElementSemantic | SEM_POSITION | SEM_TEXCOORD
deriving DecidableEq, Repr

/-- One element of a vertex layout, as in `VertexElement{ type, semantic }`. -/
structure VertexElement where
  type_ : VertexElementType
  semantic_ : VertexElementSemantic
deriving DecidableEq, Repr

/-- Texture usage token; the stitcher always allocates render targets. -/
inductive TextureUsage | TEXTURE_STATIC | TEXTURE_RENDERTARGET | TEXTURE_DYNAMIC
deriving DecidableEq, Repr

/-- 2D vector (`Vector2`), components embedded as exact rationals. -/
structure Vector2 where
  x_ : ℚ
  y_ : ℚ
deriving DecidableEq, Repr

/-- 3D vector (`Vector3`), components embedded as exact rationals. -/
structure Vector3 where
  x_ : ℚ
  y_ : ℚ
  z_ : ℚ
deriving DecidableEq, Repr

/-- One detected UV-chart seam: two own-side endpoints `positions_[2]` and
the two matching endpoints `otherPositions_[2]` on the neighbouring chart. -/
structure LightmapSeam where
  positions_ : Fin 2 → Vector2
  otherPositions_ : Fin 2 → Vector2

/-- The five floats pushed for endpoint `i` of one seam, in push order:
`positions_[i].x_`, `0.0f`, `1.0f - positions_[i].y_`,
`otherPositions_[i].x_`, `otherPositions_[i].y_`. -/
def seamEndpointData (seam : LightmapSeam) (i : Fin 2) : List ℚ :=
  [(seam.positions_ i).x_, 0, 1 - (seam.positions_ i).y_,
   (seam.otherPositions_ i).x_, (seam.otherPositions_ i).y_]

/-- The inner loop `for (unsigned i = 0; i < 2; ++i)` of
`CreateSeamsVertexBuffer`: pushes the five floats for each endpoint. -/
def seamVertexData (seam : LightmapSeam) : List ℚ :=
  seamEndpointData seam 0 ++ seamEndpointData seam 1

/-- The outer loop of `CreateSeamsVertexBuffer`: pushes each seam's data in
seam order into `vertexData`. -/
def buildSeamsVertexData : List LightmapSeam → List ℚ
  | [] => []
  | seam :: rest => seamVertexData seam ++ buildSeamsVertexData rest

/-- Shadowed vertex buffer as configured by `CreateSeamsVertexBuffer`:
`SetShadowed(true)`, `SetSize(seams.size() * 2, vertexElements)`,
`SetData(vertexData.data())`. -/
structure VertexBuffer where
  shadowed : Bool
  vertexCount : Nat
  elements : List VertexElement
  vertexData : List ℚ

/-- `CreateSeamsVertexBuffer(context, seams)`. -/
def CreateSeamsVertexBuffer (seams : List LightmapSeam) : VertexBuffer :=
  { shadowed := true
    vertexCount := seams.length * 2
    elements := [⟨.TYPE_VECTOR3, .SEM_POSITION⟩, ⟨.TYPE_VECTOR2, .SEM_TEXCOORD⟩]
    vertexData := buildSeamsVertexData seams }

/-- Geometry as configured by `CreateSeamsModel`: one vertex buffer, draw
range `SetDrawRange(LINE_LIST, 0, 0, 0, seams.size() * 2, false)`, and no
index buffer (`SetIndexBuffer` is never called). -/
structure Geometry where
  numVertexBuffers : Nat
  vertexBuffer : VertexBuffer
  hasIndexBuffer : Bool
  primitiveType : PrimitiveType
  indexStart : Nat
  indexCount : Nat
  vertexStart : Nat
  vertexCount : Nat

/-- Model as configured by `CreateSeamsModel`: unit-cube bounding box, one
geometry with one LOD level, the single seams vertex buffer. -/
structure Model where
  boundingBoxMin : Vector3
  boundingBoxMax : Vector3
  numGeometries : Nat
  numGeometryLodLevels : Nat
  vertexBuffers : List VertexBuffer
  geometry : Geometry

/-- `CreateSeamsModel(context, seams)`. -/
def CreateSeamsModel (seams : List LightmapSeam) : Model :=
  let vertexBuffer := CreateSeamsVertexBuffer seams
  { boundingBoxMin := ⟨-1, -1, -1⟩
    boundingBoxMax := ⟨1, 1, 1⟩
    numGeometries := 1
    numGeometryLodLevels := 1
    vertexBuffers := [vertexBuffer]
    geometry :=
      { numVertexBuffers := 1
        vertexBuffer := vertexBuffer
        hasIndexBuffer := false
        primitiveType := .LINE_LIST
        indexStart := 0
        indexCount := 0
        vertexStart := 0
        vertexCount := seams.length * 2 } }

/-- Modelled from the spec: `Graphics::GetFloat32Format` is not among the
provided sources; the spec states the resolver returns a distinct,
deterministic format token per channel count, so the three tokens are
embedded as distinct nonzero numeric constants. -/
def Graphics.GetFloat32Format : Nat := 1

/-- Modelled from the spec: see `Graphics.GetFloat32Format`. -/
def Graphics.GetRGFloat32Format : Nat := 2

/-- Modelled from the spec: see `Graphics.GetFloat32Format`. -/
def Graphics.GetRGBAFloat32Format : Nat := 3

/-- Result of a computation that may hit a fatal `assert`: when assertions
are compiled in, the `assert(0)` path never returns a value. -/
inductive AssertResult (α : Type)
  | ok (value : α)
  | assertionFailed
deriving DecidableEq, Repr

/-- `GetStitchTextureFormat(numChannels)`. The `assertionsEnabled` flag
distinguishes a build with `assert` active (the default branch is fatal)
from one with assertions compiled out (`assert` is a no-op and the default
branch falls through to `return 0`). -/
def GetStitchTextureFormat (assertionsEnabled : Bool) (numChannels : Nat) : AssertResult Nat :=
  match numChannels with
  | 1 => .ok Graphics.GetFloat32Format
  | 2 => .ok Graphics.GetRGFloat32Format
  | 4 => .ok Graphics.GetRGBAFloat32Format
  | _ => if assertionsEnabled then .assertionFailed else .ok 0

/-- 2D texture as configured by `InitializeStitchingContext`:
`SetNumLevels(1)` then `SetSize(size, size, textureFormat,
TEXTURE_RENDERTARGET)` where `size = static_cast<int>(lightmapSize)`. -/
structure Texture2D where
  numLevels : Nat
  width : Int
  height : Int
  format : Nat
  usage : TextureUsage
deriving DecidableEq, Repr

/-- `LightmapStitchingContext`: the lightmap edge size and the two
ping-pong render-target textures. -/
structure LightmapStitchingContext where
  lightmapSize_ : Nat
  pingTexture_ : Texture2D
  pongTexture_ : Texture2D
deriving DecidableEq, Repr

/-- `InitializeStitchingContext(context, lightmapSize, numChannels)`: both
textures receive the same level count, size, format and usage via the
`for (Texture2D* texture : { ping, pong })` loop. -/
def InitializeStitchingContext (assertionsEnabled : Bool) (lightmapSize numChannels : Nat) :
    AssertResult LightmapStitchingContext :=
  match GetStitchTextureFormat assertionsEnabled numChannels with
  | .assertionFailed => .assertionFailed
  | .ok textureFormat =>
    let size : Int := (lightmapSize : Int)
    let tex : Texture2D :=
      { numLevels := 1, width := size, height := size
        format := textureFormat, usage := .TEXTURE_RENDERTARGET }
    .ok { lightmapSize_ := lightmapSize, pingTexture_ := tex, pongTexture_ := tex }

/-- `LightmapStitchingSettings`: recognized configuration fields. -/
structure LightmapStitchingSettings where
  stitchBackgroundTechniqueName_ : String
  stitchBackgroundModelName_ : String
  stitchSeamsTechniqueName_ : String
  blendFactor_ : ℚ
  renderPathName_ : String
  numIterations_ : Nat

/-- Camera component state touched by `CreateStitchingScene`: the defaults
of the remaining fields come from the engine's `Camera` component, which is
outside the provided sources, so scene construction is parameterized over
them. -/
structure Camera where
  orthographic : Bool
  orthoSize : ℚ
  nearClip : ℚ
  farClip : ℚ
deriving DecidableEq, Repr

/-- Offscreen stitching scene as configured by `CreateStitchingScene`:
camera node at `Vector3::UP` looking down, background node left at the
scene-graph default position (the origin; its position is never set),
seams node at `(-0.5, 0.1, -0.5)`, both materials bound to the same input
texture, render orders 0 and 1, seams material tinted by
`(1, 1, 1, blendFactor_)`. -/
structure Scene where
  cameraNodePosition : Vector3
  camera : Camera
  backgroundNodePosition : Vector3
  backgroundTexture : TexId
  backgroundRenderOrder : Nat
  seamsNodePosition : Vector3
  seamsTexture : TexId
  seamsRenderOrder : Nat
  seamsBlendAlpha : ℚ

/-- `CreateStitchingScene(context, settings, inputTexture, seamsModel)`.
The camera setters are applied in source order: `SetOrthographic(true)`,
`SetOrthoSize(1.0f)`, `SetNearClip(0.1f)`, `SetNearClip(10.0f)` — note the
second `SetNearClip` call, which overwrites the first and leaves `farClip`
at its component default. -/
def CreateStitchingScene (cameraDefaults : Camera) (settings : LightmapStitchingSettings)
    (inputTexture : TexId) : Scene :=
  let camera0 := { cameraDefaults with orthographic := true }
  let camera1 := { camera0 with orthoSize := 1 }
  let camera2 := { camera1 with nearClip := 1 / 10 }
  let camera3 := { camera2 with nearClip := 10 }
  { cameraNodePosition := ⟨0, 1, 0⟩
    camera := camera3
    backgroundNodePosition := ⟨0, 0, 0⟩
    backgroundTexture := inputTexture
    backgroundRenderOrder := 0
    seamsNodePosition := ⟨-(1 / 2), 1 / 10, -(1 / 2)⟩
    seamsTexture := inputTexture
    seamsRenderOrder := 1
    seamsBlendAlpha := settings.blendFactor_ }

/-- View bound to its scene and to a fixed output render-target texture,
as built by `CreateStitchingViewAndViewport`. -/
structure View where
  scene : Scene
  outputTexture : TexId

/-- `CreateStitchingViewAndViewport(scene, renderPath, outputTexture)`. -/
def CreateStitchingViewAndViewport (scene : Scene) (outputTexture : TexId) : View :=
  { scene := scene, outputTexture := outputTexture }

/-- Distance from a camera looking straight down (`Vector3::DOWN`) to a
draw layer placed at a node position: the difference of the y components. -/
def downwardDistance (cameraPosition nodePosition : Vector3) : ℚ :=
  cameraPosition.y_ - nodePosition.y_

/-- A layer at the given viewing distance lies inside the camera's
near/far clip range. -/
def inClipRange (camera : Camera) (distance : ℚ) : Prop :=
  camera.nearClip ≤ distance ∧ distance ≤ camera.farClip

/-- The input/output texture wiring of a view: its scene samples `input`
(the texture bound to both materials) and it renders into `output`. -/
structure StitchView where
  input : TexId
  output : TexId
deriving DecidableEq, Repr

/-- The texture wiring a `View` carries. -/
def View.wiring (v : View) : StitchView :=
  { input := v.scene.backgroundTexture, output := v.outputTexture }

/-- Backend operations issued by `StitchLightmapSeams`, in issue order. -/
inductive GfxOp
  | beginFrame
  | upload (target : TexId)
  | render (output : TexId)
  | readback (source : TexId)
  | endFrame
deriving DecidableEq, Repr

/-- State of the ping-pong loop: the `currentTexture`/`swapTexture` and
`currentView`/`swapView` role pointers, the physical contents of the two
textures, which texture was written last, and bookkeeping counters. -/
structure LoopState (α : Type) where
  currentTexture : TexId
  swapTexture : TexId
  currentView : StitchView
  swapView : StitchView
  pingData : α
  pongData : α
  lastWritten : TexId
  renderCount : Nat
  swapCount : Nat
  renderTrace : List TexId

/-- Physical contents of a texture. -/
def LoopState.getData {α : Type} (s : LoopState α) (t : TexId) : α :=
  match t with
  | .ping => s.pingData
  | .pong => s.pongData

/-- One iteration of the loop body: `currentView->Render()` reads the
texture its scene samples, writes the blended result into the view's fixed
output texture, then `ea::swap` exchanges the texture roles and the view
roles. `f` is the abstract seam-blend pass the GPU executes. -/
def stitchIterate {α : Type} (f : α → α) (s : LoopState α) : LoopState α :=
  let out := s.currentView.output
  let newData := f (s.getData s.currentView.input)
  { currentTexture := s.swapTexture
    swapTexture := s.currentTexture
    currentView := s.swapView
    swapView := s.currentView
    pingData := if out = .ping then newData else s.pingData
    pongData := if out = .pong then newData else s.pongData
    lastWritten := out
    renderCount := s.renderCount + 1
    swapCount := s.swapCount + 1
    renderTrace := s.renderTrace ++ [out] }

/-- `for (unsigned i = 0; i < settings.numIterations_; ++i)`: the loop body
applied `n` times. -/
def stitchLoop {α : Type} (f : α → α) : Nat → LoopState α → LoopState α
  | 0, s => s
  | n + 1, s => stitchIterate f (stitchLoop f n s)

/-- Result of `StitchLightmapSeams`: the caller's pixel buffer after the
call, whether the failure diagnostic was logged, the backend operations
issued, the two views built up front, the readback source (if any) and the
loop's final state (if reached). -/
structure StitchResult (α : Type) where
  imageData : α
  loggedError : Bool
  trace : List GfxOp
  pingViewViewport : View
  pongViewViewport : View
  readbackTexture : Option TexId
  finalLoop : Option (LoopState α)

/-- `StitchLightmapSeams(stitchingContext, imageData, settings, seamsModel)`.
`beginFrameOk` is the result of `graphics->BeginFrame()`; `blank` is the
(unspecified) contents of a freshly allocated texture; `f` is the abstract
per-pass seam blend. The scenes and views are built before the frame
bracket, exactly as in the source. -/
def StitchLightmapSeams {α : Type} (cameraDefaults : Camera) (blank : α)
    (beginFrameOk : Bool) (f : α → α)
    (settings : LightmapStitchingSettings) (imageData : α) : StitchResult α :=
  let pingScene := CreateStitchingScene cameraDefaults settings .pong
  let pongScene := CreateStitchingScene cameraDefaults settings .ping
  let pingViewViewport := CreateStitchingViewAndViewport pingScene .ping
  let pongViewViewport := CreateStitchingViewAndViewport pongScene .pong
  if beginFrameOk then
    let s0 : LoopState α :=
      { currentTexture := .pong
        swapTexture := .ping
        currentView := pingViewViewport.wiring
        swapView := pongViewViewport.wiring
        pingData := blank
        pongData := blank
        lastWritten := .pong
        renderCount := 0
        swapCount := 0
        renderTrace := [] }
    let s1 : LoopState α :=
      { s0 with
        pingData := if s0.currentTexture = .ping then imageData else s0.pingData
        pongData := if s0.currentTexture = .pong then imageData else s0.pongData
        lastWritten := s0.currentTexture }
    let sFinal := stitchLoop f settings.numIterations_ s1
    { imageData := sFinal.getData sFinal.currentTexture
      loggedError := false
      trace := [GfxOp.beginFrame, GfxOp.upload s0.currentTexture]
        ++ sFinal.renderTrace.map GfxOp.render
        ++ [GfxOp.readback sFinal.currentTexture, GfxOp.endFrame]
      pingViewViewport := pingViewViewport
      pongViewViewport := pongViewViewport
      readbackTexture := some sFinal.currentTexture
      finalLoop := some sFinal }
  else
    { imageData := imageData
      loggedError := true
      trace := []
      pingViewViewport := pingViewViewport
      pongViewViewport := pongViewViewport
      readbackTexture := none
      finalLoop := none }

/-! ### Helper lemmas -/

/-- Length of the assembled seams vertex data: ten floats per seam. -/
lemma buildSeamsVertexData_length (seams : List LightmapSeam) :
    (buildSeamsVertexData seams).length = 10 * seams.length := by
  induction seams with
  | nil => rfl
  | cons s rest ih =>
    simp only [buildSeamsVertexData, seamVertexData, seamEndpointData, List.append_assoc,
      List.length_append, List.length_cons, List.length_nil, ih]
    ring

/-- Dropping a prefix plus `n` from an append drops `n` from the suffix. -/
lemma drop_length_append {α : Type} (l₁ l₂ : List α) (n : Nat) :
    (l₁ ++ l₂).drop (l₁.length + n) = l₂.drop n := by
  induction l₁ with
  | nil => simp
  | cons a l ih =>
    rw [List.cons_append, List.length_cons,
      show l.length + 1 + n = (l.length + n) + 1 from by omega,
      List.drop_succ_cons]
    exact ih

/-! ### Claims -/

/-- C1: with `numIterations_ = 0` the driver issues exactly one upload of
the pixel buffer into the pong texture followed by one readback from that
same texture, with no render in between, and the caller's pixel buffer is
returned unchanged (the upload+download round trip is exact for the
floating-point formats used, with no backend resampling). -/
theorem stitch_zero_iterations_roundtrip {α : Type} (cameraDefaults : Camera) (blank : α)
    (f : α → α) (settings : LightmapStitchingSettings) (imageData : α) :
    let r := StitchLightmapSeams cameraDefaults blank true f
      { settings with numIterations_ := 0 } imageData
    r.trace = [GfxOp.beginFrame, GfxOp.upload TexId.pong,
      GfxOp.readback TexId.pong, GfxOp.endFrame] ∧
    r.imageData = imageData :=
  ⟨rfl, rfl⟩

/-- C3: when `graphics->BeginFrame()` fails, the driver logs a diagnostic
and returns at once: the pixel buffer is unchanged and no upload, render,
readback or frame-end operation is issued. -/
theorem stitch_beginframe_failure {α : Type} (cameraDefaults : Camera) (blank : α)
    (f : α → α) (settings : LightmapStitchingSettings) (imageData : α) :
    let r := StitchLightmapSeams cameraDefaults blank false f settings imageData
    r.imageData = imageData ∧ r.loggedError = true ∧ r.trace = [] ∧
    r.readbackTexture = none ∧ r.finalLoop = none :=
  ⟨rfl, rfl, rfl, rfl, rfl⟩

/-- C4: both scenes and views are built once, before the loop and
independently of the iteration count: the ping scene samples the pong
texture and its view renders into the ping texture, the pong scene samples
the ping texture and its view renders into the pong texture, and the
initial upload targets the pong texture — the very texture the ping
scene's first pass reads. -/
theorem stitch_scene_view_wiring {α : Type} (cameraDefaults : Camera) (blank : α)
    (f : α → α) (settings : LightmapStitchingSettings) (imageData : α) (n : Nat) :
    let r := StitchLightmapSeams cameraDefaults blank true f settings imageData
    r.pingViewViewport.scene.backgroundTexture = TexId.pong ∧
    r.pingViewViewport.scene.seamsTexture = TexId.pong ∧
    r.pingViewViewport.outputTexture = TexId.ping ∧
    r.pongViewViewport.scene.backgroundTexture = TexId.ping ∧
    r.pongViewViewport.scene.seamsTexture = TexId.ping ∧
    r.pongViewViewport.outputTexture = TexId.pong ∧
    r.trace.take 2 = [GfxOp.beginFrame, GfxOp.upload r.pingViewViewport.scene.backgroundTexture] ∧
    (StitchLightmapSeams cameraDefaults blank true f
      { settings with numIterations_ := n } imageData).pingViewViewport = r.pingViewViewport ∧
    (StitchLightmapSeams cameraDefaults blank true f
      { settings with numIterations_ := n } imageData).pongViewViewport = r.pongViewViewport :=
  ⟨rfl, rfl, rfl, rfl, rfl, rfl, rfl, rfl, rfl⟩

/-- C5: for every seam vector of size `k` the built model has a single
vertex buffer sized to exactly `2k` vertices, one geometry with line-list
topology, a draw vertex count of `2k`, no index buffer, and vertex data
consistent with the vertex count (five floats per vertex) — so `k = 0`
yields a structurally valid zero-draw geometry. -/
theorem createSeamsModel_geometry (seams : List LightmapSeam) :
    let m := CreateSeamsModel seams
    m.vertexBuffers.length = 1 ∧
    m.numGeometries = 1 ∧
    m.geometry.numVertexBuffers = 1 ∧
    m.geometry.vertexBuffer.vertexCount = 2 * seams.length ∧
    m.geometry.primitiveType = PrimitiveType.LINE_LIST ∧
    m.geometry.vertexCount = 2 * seams.length ∧
    m.geometry.hasIndexBuffer = false ∧
    m.geometry.indexCount = 0 ∧
    m.geometry.vertexBuffer.vertexData.length = 5 * m.geometry.vertexCount := by
  refine ⟨rfl, rfl, rfl, Nat.mul_comm _ _, rfl, Nat.mul_comm _ _, rfl, rfl, ?_⟩
  show (buildSeamsVertexData seams).length = 5 * (seams.length * 2)
  rw [buildSeamsVertexData_length]
  ring

/-- C7: with assertions active, the resolver maps channel counts 1, 2 and 4
to the single-, two- and four-channel 32-bit float formats — three distinct
deterministic values — and every other channel count takes the fatal
assertion path instead of returning a format. -/
theorem getStitchTextureFormat_contract (n : Nat) (h1 : n ≠ 1) (h2 : n ≠ 2) (h4 : n ≠ 4) :
    GetStitchTextureFormat true 1 = .ok Graphics.GetFloat32Format ∧
    GetStitchTextureFormat true 2 = .ok Graphics.GetRGFloat32Format ∧
    GetStitchTextureFormat true 4 = .ok Graphics.GetRGBAFloat32Format ∧
    Graphics.GetFloat32Format ≠ Graphics.GetRGFloat32Format ∧
    Graphics.GetFloat32Format ≠ Graphics.GetRGBAFloat32Format ∧
    Graphics.GetRGFloat32Format ≠ Graphics.GetRGBAFloat32Format ∧
    GetStitchTextureFormat true n = .assertionFailed := by
  refine ⟨rfl, rfl, rfl, by decide, by decide, by decide, ?_⟩
  match n, h1, h2, h4 with
  | 0, _, _, _ => rfl
  | 1, h, _, _ => exact absurd rfl h
  | 2, _, h, _ => exact absurd rfl h
  | 3, _, _, _ => rfl
  | 4, _, _, h => exact absurd rfl h
  | m + 5, _, _, _ => rfl

/-- Witness for C7 at the concrete invalid channel count 3. -/
theorem getStitchTextureFormat_contract_witness :
    ((3 : Nat) ≠ 1 ∧ (3 : Nat) ≠ 2 ∧ (3 : Nat) ≠ 4) ∧
    (GetStitchTextureFormat true 1 = .ok Graphics.GetFloat32Format ∧
     GetStitchTextureFormat true 2 = .ok Graphics.GetRGFloat32Format ∧
     GetStitchTextureFormat true 4 = .ok Graphics.GetRGBAFloat32Format ∧
     Graphics.GetFloat32Format ≠ Graphics.GetRGFloat32Format ∧
     Graphics.GetFloat32Format ≠ Graphics.GetRGBAFloat32Format ∧
     Graphics.GetRGFloat32Format ≠ Graphics.GetRGBAFloat32Format ∧
     GetStitchTextureFormat true 3 = .assertionFailed) :=
  ⟨by decide, getStitchTextureFormat_contract 3 (by decide) (by decide) (by decide)⟩

/-- C8: for every lightmap size and valid channel count, the initializer
produces a context whose ping and pong textures are identical records —
same `lightmapSize × lightmapSize` dimensions, same resolved format, a
single mip level and render-target usage. -/
theorem initializeStitchingContext_textures (assertionsEnabled : Bool) (size numChannels : Nat)
    (h : numChannels = 1 ∨ numChannels = 2 ∨ numChannels = 4) :
    ∃ ctx, InitializeStitchingContext assertionsEnabled size numChannels = .ok ctx ∧
      ctx.pingTexture_ = ctx.pongTexture_ ∧
      ctx.pingTexture_.numLevels = 1 ∧
      ctx.pingTexture_.width = (size : Int) ∧
      ctx.pingTexture_.height = (size : Int) ∧
      ctx.pingTexture_.usage = TextureUsage.TEXTURE_RENDERTARGET ∧
      ctx.lightmapSize_ = size ∧
      ∃ fmt, GetStitchTextureFormat assertionsEnabled numChannels = .ok fmt ∧
        ctx.pingTexture_.format = fmt := by
  rcases h with rfl | rfl | rfl
  · exact ⟨_, rfl, rfl, rfl, rfl, rfl, rfl, rfl, _, rfl, rfl⟩
  · exact ⟨_, rfl, rfl, rfl, rfl, rfl, rfl, rfl, _, rfl, rfl⟩
  · exact ⟨_, rfl, rfl, rfl, rfl, rfl, rfl, rfl, _, rfl, rfl⟩

/-- Witness for C8 at size 16 with channel count 4. -/
theorem initializeStitchingContext_textures_witness :
    ((4 : Nat) = 1 ∨ (4 : Nat) = 2 ∨ (4 : Nat) = 4) ∧
    (∃ ctx, InitializeStitchingContext true 16 4 = .ok ctx ∧
      ctx.pingTexture_ = ctx.pongTexture_ ∧
      ctx.pingTexture_.numLevels = 1 ∧
      ctx.pingTexture_.width = (16 : Int) ∧
      ctx.pingTexture_.height = (16 : Int) ∧
      ctx.pingTexture_.usage = TextureUsage.TEXTURE_RENDERTARGET ∧
      ctx.lightmapSize_ = 16 ∧
      ∃ fmt, GetStitchTextureFormat true 4 = .ok fmt ∧
        ctx.pingTexture_.format = fmt) :=
  ⟨by decide, initializeStitchingContext_textures true 16 4 (by decide)⟩

/-- C9: evaluation of the stitching scene the code actually builds. The
second `SetNearClip(10.0f)` call (in place of the intended `SetFarClip`)
leaves the near clip at 10 while the background layer sits 1 unit and the
seams layer 9/10 unit below the camera, so the near/far clip range
contains neither draw layer — contradicting the documented camera setup. -/
theorem stitchingScene_nearclip_bug (cameraDefaults : Camera)
    (settings : LightmapStitchingSettings) (inputTexture : TexId) :
    let scene := CreateStitchingScene cameraDefaults settings inputTexture
    scene.camera.nearClip = 10 ∧
    downwardDistance scene.cameraNodePosition scene.backgroundNodePosition = 1 ∧
    downwardDistance scene.cameraNodePosition scene.seamsNodePosition = 9 / 10 ∧
    ¬ inClipRange scene.camera
      (downwardDistance scene.cameraNodePosition scene.backgroundNodePosition) ∧
    ¬ inClipRange scene.camera
      (downwardDistance scene.cameraNodePosition scene.seamsNodePosition) := by
  refine ⟨rfl, by norm_num [CreateStitchingScene, downwardDistance],
    by norm_num [CreateStitchingScene, downwardDistance], ?_, ?_⟩
  · rintro ⟨hnear, -⟩
    norm_num [CreateStitchingScene, downwardDistance] at hnear
  · rintro ⟨hnear, -⟩
    norm_num [CreateStitchingScene, downwardDistance] at hnear

/-- C10: with assertions compiled out, an invalid channel count does not
abort: the resolver returns format 0 and the initializer still produces a
context whose two textures carry format 0. -/
theorem getStitchTextureFormat_noassert (size numChannels : Nat)
    (h1 : numChannels ≠ 1) (h2 : numChannels ≠ 2) (h4 : numChannels ≠ 4) :
    GetStitchTextureFormat false numChannels = .ok 0 ∧
    ∃ ctx, InitializeStitchingContext false size numChannels = .ok ctx ∧
      ctx.pingTexture_.format = 0 ∧ ctx.pongTexture_.format = 0 := by
  have hf : GetStitchTextureFormat false numChannels = .ok 0 := by
    match numChannels, h1, h2, h4 with
    | 0, _, _, _ => rfl
    | 1, h, _, _ => exact absurd rfl h
    | 2, _, h, _ => exact absurd rfl h
    | 3, _, _, _ => rfl
    | 4, _, _, h => exact absurd rfl h
    | m + 5, _, _, _ => rfl
  refine ⟨hf, ⟨⟨size, ⟨1, (size : Int), (size : Int), 0, .TEXTURE_RENDERTARGET⟩,
    ⟨1, (size : Int), (size : Int), 0, .TEXTURE_RENDERTARGET⟩⟩, ?_, rfl, rfl⟩⟩
  simp [InitializeStitchingContext, hf]

/-- Witness for C10 at size 8 with the concrete invalid channel count 3. -/
theorem getStitchTextureFormat_noassert_witness :
    ((3 : Nat) ≠ 1 ∧ (3 : Nat) ≠ 2 ∧ (3 : Nat) ≠ 4) ∧
    (GetStitchTextureFormat false 3 = .ok 0 ∧
     ∃ ctx, InitializeStitchingContext false 8 3 = .ok ctx ∧
       ctx.pingTexture_.format = 0 ∧ ctx.pongTexture_.format = 0) :=
  ⟨by decide, getStitchTextureFormat_noassert 8 3 (by decide) (by decide) (by decide)⟩

/-- Role-tracking invariant of the ping-pong loop: starting from the state
just after the upload (current = pong, swap = ping, current view = the
ping view wired pong-to-ping), after `n` iterations the roles are
determined by the parity of `n`, the last-written texture is the current
one, and the render/swap counters each advanced by `n`. -/
lemma stitchLoop_roles {α : Type} (f : α → α) (n : Nat) (s : LoopState α)
    (hct : s.currentTexture = TexId.pong) (hst : s.swapTexture = TexId.ping)
    (hcv : s.currentView = StitchView.mk TexId.pong TexId.ping)
    (hsv : s.swapView = StitchView.mk TexId.ping TexId.pong)
    (hlw : s.lastWritten = TexId.pong) :
    (stitchLoop f n s).currentTexture
        = (if n % 2 = 0 then TexId.pong else TexId.ping) ∧
    (stitchLoop f n s).swapTexture
        = (if n % 2 = 0 then TexId.ping else TexId.pong) ∧
    (stitchLoop f n s).currentView
        = (if n % 2 = 0 then StitchView.mk TexId.pong TexId.ping
           else StitchView.mk TexId.ping TexId.pong) ∧
    (stitchLoop f n s).swapView
        = (if n % 2 = 0 then StitchView.mk TexId.ping TexId.pong
           else StitchView.mk TexId.pong TexId.ping) ∧
    (stitchLoop f n s).lastWritten = (stitchLoop f n s).currentTexture ∧
    (stitchLoop f n s).renderCount = s.renderCount + n ∧
    (stitchLoop f n s).swapCount = s.swapCount + n := by
  induction n with
  | zero => simp [stitchLoop, hct, hst, hcv, hsv, hlw]
  | succ n ih =>
    obtain ⟨h1, h2, h3, h4, h5, h6, h7⟩ := ih
    by_cases hpar : n % 2 = 0
    · have hpar1 : ¬ (n + 1) % 2 = 0 := by omega
      refine ⟨?_, ?_, ?_, ?_, ?_, ?_, ?_⟩ <;>
        simp [stitchLoop, stitchIterate, h1, h2, h3, h4, h6, h7, hpar, hpar1] <;> omega
    · have hpar1 : (n + 1) % 2 = 0 := by omega
      refine ⟨?_, ?_, ?_, ?_, ?_, ?_, ?_⟩ <;>
        simp [stitchLoop, stitchIterate, h1, h2, h3, h4, h6, h7, hpar, hpar1] <;> omega

/-- C2: the loop renders and swaps exactly `numIterations_` times; at loop
exit the texture physically holding the latest written data is the pong
texture (the texture designated current at upload) after an even number of
iterations and the ping texture after an odd number, and the final
readback reads exactly that last-written texture. -/
theorem stitch_pingpong_parity {α : Type} (cameraDefaults : Camera) (blank : α)
    (f : α → α) (settings : LightmapStitchingSettings) (imageData : α) :
    let r := StitchLightmapSeams cameraDefaults blank true f settings imageData
    ∃ fin, r.finalLoop = some fin ∧
      fin.renderCount = settings.numIterations_ ∧
      fin.swapCount = settings.numIterations_ ∧
      fin.lastWritten
        = (if settings.numIterations_ % 2 = 0 then TexId.pong else TexId.ping) ∧
      fin.currentTexture = fin.lastWritten ∧
      r.readbackTexture = some fin.lastWritten := by
  obtain ⟨h1, h2, h3, h4, h5, h6, h7⟩ := stitchLoop_roles f settings.numIterations_
    { currentTexture := TexId.pong
      swapTexture := TexId.ping
      currentView := StitchView.mk TexId.pong TexId.ping
      swapView := StitchView.mk TexId.ping TexId.pong
      pingData := blank
      pongData := imageData
      lastWritten := TexId.pong
      renderCount := 0
      swapCount := 0
      renderTrace := [] } rfl rfl rfl rfl rfl
  exact ⟨_, rfl, h6.trans (Nat.zero_add _), h7.trans (Nat.zero_add _),
    h5.trans h1, h5.symm, congrArg some h5.symm⟩

/-- C6: for every seam vector, the vertex data holds, for seam `k` and
endpoint `i` (two endpoints per seam, in order), exactly five floats at
offset `(2k + i) * 5`: the own-side X, the constant 0, the own-side Y
mirrored as `1 - y`, then the other-side X and the other-side Y. -/
theorem createSeamsVertexBuffer_layout (seams : List LightmapSeam) (k : Nat) (i : Fin 2)
    (hk : k < seams.length) :
    ((CreateSeamsVertexBuffer seams).vertexData.drop ((2 * k + i.val) * 5)).take 5 =
      [((seams.get ⟨k, hk⟩).positions_ i).x_, 0,
       1 - ((seams.get ⟨k, hk⟩).positions_ i).y_,
       ((seams.get ⟨k, hk⟩).otherPositions_ i).x_,
       ((seams.get ⟨k, hk⟩).otherPositions_ i).y_] := by
  show ((buildSeamsVertexData seams).drop ((2 * k + i.val) * 5)).take 5 = _
  induction seams generalizing k with
  | nil => exact absurd hk (by simp)
  | cons s rest ih =>
    match k with
    | 0 =>
      fin_cases i <;>
        simp [buildSeamsVertexData, seamVertexData, seamEndpointData, List.get]
    | k + 1 =>
      have hk' : k < rest.length := by
        simpa using Nat.lt_of_succ_lt_succ hk
      have harith : (2 * (k + 1) + i.val) * 5 = (seamVertexData s).length + (2 * k + i.val) * 5 := by
        show _ = 10 + _
        ring
      rw [show buildSeamsVertexData (s :: rest) = seamVertexData s ++ buildSeamsVertexData rest
          from rfl,
        harith, drop_length_append]
      exact (ih k hk').trans (by simp [List.get])

/-- Concrete seam used as the layout witness: own-side endpoints `(0,0)`
and `(1,0)`, other-side endpoints `(0,1)` and `(1,1)`. -/
def seamExample : LightmapSeam :=
  { positions_ := fun i => if i.val = 0 then ⟨0, 0⟩ else ⟨1, 0⟩
    otherPositions_ := fun i => if i.val = 0 then ⟨0, 1⟩ else ⟨1, 1⟩ }

/-- Witness for C6 at the concrete one-seam vector, seam 0, endpoint 0. -/
theorem createSeamsVertexBuffer_layout_witness :
    0 < [seamExample].length ∧
    ((CreateSeamsVertexBuffer [seamExample]).vertexData.drop 0).take 5 =
      [(seamExample.positions_ 0).x_, 0, 1 - (seamExample.positions_ 0).y_,
       (seamExample.otherPositions_ 0).x_, (seamExample.otherPositions_ 0).y_] :=
  ⟨by decide, createSeamsVertexBuffer_layout [seamExample] 0 0 (by decide)⟩

end LightmapStitcher
